import Mathlib

/-!
Verification of the analysis-synthesis-generation pipeline of the
`cypressAssistant` automation service (`automationService.ts`).

Strings are modelled as `List Char`.  JavaScript's `toLowerCase` is modelled
by `Char.toLower` (ASCII case folding), the regex character class `\s` by the
ASCII whitespace characters plus NBSP, and `\w` by `[A-Za-z0-9_]`.  The
remote OpenAI transport is abstract in the source (a `fetch` round trip); it is
modelled by an explicit environment (`RemoteEnv`) describing the credential,
the transport outcome, and — since the response body is an abstract payload —
the outcome of parsing it into the expected shape.  Effects on the file
system are modelled as an explicit ordered event trace (`FsEvent`).
-/

/-- Conversion of a Lean string literal to the `List Char` string model. -/
def strL (s : String) : List Char := s.toList

/-- Characters matched by the JavaScript regex class `\s` (ASCII part plus
NBSP), also the characters removed by `String.prototype.trim`. -/
def isJsSpace (c : Char) : Bool :=
  c = ' ' || c = '\t' || c = '\n' || c = '\r' || c = '\x0b' || c = '\x0c' || c = ' '

/-- Characters matched by the JavaScript regex class `\w`. -/
def isWordChar (c : Char) : Bool :=
  (('a' ≤ c && c ≤ 'z') || ('A' ≤ c && c ≤ 'Z') || ('0' ≤ c && c ≤ '9') || c = '_')

/-- Model of `String.prototype.toLowerCase` (ASCII case folding). -/
def toLowerL (s : List Char) : List Char := s.map Char.toLower

/-- Boolean prefix test on the `List Char` string model. -/
def isPrefixL : List Char → List Char → Bool
  | [], _ => true
  | _, [] => false
  | a :: as, b :: bs => a = b && isPrefixL as bs

/-- Model of `String.prototype.includes`: `containsSub needle hay` holds when
`needle` occurs as a contiguous substring of `hay`. -/
def containsSub (needle : List Char) : List Char → Bool
  | [] => needle.isEmpty
  | s@(_ :: rest) => isPrefixL needle s || containsSub needle rest

/-- Model of `String.prototype.trim`: strip `\s` characters at both ends. -/
def trimL (s : List Char) : List Char :=
  ((s.dropWhile isJsSpace).reverse.dropWhile isJsSpace).reverse

/-- Model of `prd.split('\n')`. -/
def splitLines (s : List Char) : List (List Char) := s.splitOn '\n'

/-- Case-insensitive literal matching: strip `pat` (given lower-case) from the
front of `s`, comparing case-insensitively, returning the rest of `s`. -/
def stripCI : List Char → List Char → Option (List Char)
  | [], s => some s
  | _, [] => none
  | p :: ps, c :: cs => if c.toLower = p then stripCI ps cs else none

/-- Preference for the second option when it is `some`, used to state that a
later regex match overwrites an earlier one. -/
def optOr (a b : Option α) : Option α :=
  match a with
  | some x => some x
  | none => b

/-- Capture of the last element of the list on which `f` fires, the value
retained by repeated overwriting assignments in source order. -/
def lastSome (f : α → Option β) : List α → Option β
  | [] => none
  | a :: l =>
    match lastSome f l with
    | some b => some b
    | none => f a

/-- Leftmost-match search: try the matcher at every start position of the
string, from the left, as `String.prototype.match` does for an unanchored
regex without the `g` flag. -/
def firstMatch (tryA : List Char → Option α) : List Char → Option α
  | [] => tryA []
  | s@(_ :: rest) =>
    match tryA s with
    | some r => some r
    | none => firstMatch tryA rest

/-- Matcher for the tail `\s*([^\s]+)` of the `Username:`/`Password:`
patterns of `parseTestDataFromPRD`: skip whitespace greedily, then capture a
maximal non-empty run of non-whitespace characters. -/
def wsToken (s : List Char) : Option (List Char) :=
  let afterWs := s.dropWhile isJsSpace
  let cap := afterWs.takeWhile (fun c => !isJsSpace c)
  if cap.isEmpty then none else some cap

/-- Attempt, at the current position, the pattern `<label>\s*([^\s]+)` with
the label matched case-insensitively (`label` is given lower-case). -/
def tryLabelToken (label : List Char) (s : List Char) : Option (List Char) :=
  match stripCI label s with
  | none => none
  | some r => wsToken r

/-- Attempt `https?:\/\/` at the current position (case-insensitively, the
optional `s` greedy), returning the rest of the string. -/
def stripScheme (s : List Char) : Option (List Char) :=
  match stripCI (strL "http") s with
  | none => none
  | some r1 =>
    match r1 with
    | c :: cs =>
      if c.toLower = 's' then
        match stripCI (strL "://") cs with
        | some r2 => some r2
        | none => stripCI (strL "://") r1
      else stripCI (strL "://") r1
    | [] => none

/-- Attempt, at the current position, the pattern
`URL:\s*(https?:\/\/[^\s]+)` of `parseTestDataFromPRD`; the capture is the
whole scheme-qualified token as written. -/
def tryUrl (s : List Char) : Option (List Char) :=
  match stripCI (strL "url:") s with
  | none => none
  | some r =>
    let afterWs := r.dropWhile isJsSpace
    match stripScheme afterWs with
    | none => none
    | some rest =>
      match rest with
      | [] => none
      | c :: _ =>
        if isJsSpace c then none
        else some (afterWs.takeWhile (fun c => !isJsSpace c))

/-- Leftmost match of the URL pattern on one line. -/
def lineUrl (line : List Char) : Option (List Char) := firstMatch tryUrl line

/-- Leftmost match of the `Username:` pattern on one line. -/
def lineUsername (line : List Char) : Option (List Char) :=
  firstMatch (tryLabelToken (strL "username:")) line

/-- Leftmost match of the `Password:` pattern on one line. -/
def linePassword (line : List Char) : Option (List Char) :=
  firstMatch (tryLabelToken (strL "password:")) line

/-- Structured quick-test payload assembled by `parseTestDataFromPRD` (the
`QuickTestDescriptor` of the spec). -/
structure TestData where
  url : Option (List Char) := none
  username : Option (List Char) := none
  password : Option (List Char) := none
deriving DecidableEq, Repr

instance : Inhabited TestData := ⟨{}⟩

/-- Per-line body of the loop of `parseTestDataFromPRD`: each of the three
patterns independently overwrites its field when the line matches. -/
def processLine (td : TestData) (line : List Char) : TestData :=
  let td1 :=
    match lineUrl line with
    | some u => { td with url := some u }
    | none => td
  let td2 :=
    match lineUsername line with
    | some u => { td1 with username := some u }
    | none => td1
  match linePassword line with
  | some p => { td2 with password := some p }
  | none => td2

/-- Model of `parseTestDataFromPRD`: scan the lines for the three labelled
patterns and return the accumulated record if a (truthy, hence non-empty)
URL was captured, otherwise `none` (the `null` of the source). -/
def parseTestDataFromPRD (prd : List Char) : Option TestData :=
  let td := (splitLines prd).foldl processLine {}
  match td.url with
  | some u => if u.isEmpty then none else some td
  | none => none

/-- Status values of a test case. -/
inductive Status where
  | pending
  | generated
  | running
  | passed
  | failed
deriving DecidableEq, Repr

/-- Model of the `ITestCase` record. -/
structure TestCase where
  id : List Char
  name : List Char
  description : List Char
  steps : List (List Char)
  expectedResult : List Char
  cypressCode : Option (List Char) := none
  playwrightCode : Option (List Char) := none
  status : Option Status := none
  testData : Option TestData := none
deriving DecidableEq, Repr

/-- Rendering of an optional string in a JavaScript template literal: a
missing (`undefined`) value prints as the text `undefined`. -/
def optStr (o : Option (List Char)) : List Char :=
  match o with
  | some s => s
  | none => strL "undefined"

/-- Model of `generateLoginTestCasesForURL`: the four fixed URL-mode test
cases, each embedding the full descriptor as its test data. -/
def generateLoginTestCasesForURL (testData : TestData) : List TestCase :=
  [ { id := strL "login-001",
      name := strL "Successful Login with Valid Credentials",
      description := strL "Verify user can login to " ++ optStr testData.url ++ strL " with valid credentials",
      steps :=
        [ strL "Navigate to " ++ optStr testData.url,
          strL "Enter username: " ++ optStr testData.username,
          strL "Enter password: " ++ optStr testData.password,
          strL "Click login/submit button",
          strL "Verify successful login" ],
      expectedResult := strL "User is successfully logged in and redirected to dashboard/home page",
      status := some .pending,
      testData := some testData },
    { id := strL "login-002",
      name := strL "Invalid Username Test",
      description := strL "Verify system shows error for invalid username",
      steps :=
        [ strL "Navigate to " ++ optStr testData.url,
          strL "Enter invalid username",
          strL "Enter password: " ++ optStr testData.password,
          strL "Click login button" ],
      expectedResult := strL "Error message is displayed indicating invalid username",
      status := some .pending,
      testData := some testData },
    { id := strL "login-003",
      name := strL "Invalid Password Test",
      description := strL "Verify system shows error for invalid password",
      steps :=
        [ strL "Navigate to " ++ optStr testData.url,
          strL "Enter username: " ++ optStr testData.username,
          strL "Enter invalid password",
          strL "Click login button" ],
      expectedResult := strL "Error message is displayed indicating invalid password",
      status := some .pending,
      testData := some testData },
    { id := strL "login-004",
      name := strL "Empty Fields Validation",
      description := strL "Verify validation for empty username and password fields",
      steps :=
        [ strL "Navigate to " ++ optStr testData.url,
          strL "Leave username and password fields empty",
          strL "Click login button" ],
      expectedResult := strL "Validation messages appear for required fields",
      status := some .pending,
      testData := some testData } ]

/-- Model of `generateLoginTestCases` (keyword mode, `login`). -/
def generateLoginTestCases : List TestCase :=
  [ { id := strL "login-001",
      name := strL "Successful Login",
      description := strL "User can login with valid credentials",
      steps :=
        [ strL "Navigate to login page",
          strL "Enter valid email address",
          strL "Enter valid password",
          strL "Click login button" ],
      expectedResult := strL "User is redirected to dashboard",
      status := some .pending },
    { id := strL "login-002",
      name := strL "Invalid Credentials",
      description := strL "System shows error for invalid login",
      steps :=
        [ strL "Navigate to login page",
          strL "Enter invalid email or password",
          strL "Click login button" ],
      expectedResult := strL "Error message is displayed",
      status := some .pending } ]

/-- Model of `generateCartTestCases` (keyword mode, `cart`/`shopping`). -/
def generateCartTestCases : List TestCase :=
  [ { id := strL "cart-001",
      name := strL "Add to Cart",
      description := strL "User can add products to cart",
      steps :=
        [ strL "Navigate to product page",
          strL "Click add to cart button",
          strL "Verify cart notification" ],
      expectedResult := strL "Product is added to cart",
      status := some .pending },
    { id := strL "cart-002",
      name := strL "Remove from Cart",
      description := strL "User can remove items from cart",
      steps :=
        [ strL "Navigate to cart page",
          strL "Click remove button on item",
          strL "Confirm removal" ],
      expectedResult := strL "Item is removed from cart",
      status := some .pending } ]

/-- Model of `generateSearchTestCases` (keyword mode, `search`). -/
def generateSearchTestCases : List TestCase :=
  [ { id := strL "search-001",
      name := strL "Search Functionality",
      description := strL "User can search for items",
      steps :=
        [ strL "Navigate to homepage",
          strL "Enter search term",
          strL "Click search button" ],
      expectedResult := strL "Search results are displayed",
      status := some .pending } ]

/-- Model of `generateGenericTestCase` (keyword mode, no keyword matched). -/
def generateGenericTestCase : TestCase :=
  { id := strL "generic-001",
    name := strL "Basic Functionality Test",
    description := strL "Verify basic system functionality",
    steps :=
      [ strL "Navigate to application",
        strL "Perform primary action",
        strL "Verify expected behavior" ],
    expectedResult := strL "System works as expected",
    status := some .pending }

/-- Model of `generateTestCasesFallback`: keyword-mode synthesis over the
lower-cased text, appending the canned sets in source order, with the
generic fallback when nothing accumulated. -/
def generateTestCasesFallback (prd : List Char) : List TestCase :=
  let prdLower := toLowerL prd
  let testCases : List TestCase := []
  let testCases :=
    if containsSub (strL "login") prdLower then testCases ++ generateLoginTestCases else testCases
  let testCases :=
    if containsSub (strL "cart") prdLower || containsSub (strL "shopping") prdLower then
      testCases ++ generateCartTestCases
    else testCases
  let testCases :=
    if containsSub (strL "search") prdLower then testCases ++ generateSearchTestCases else testCases
  if testCases.length = 0 then [generateGenericTestCase] else testCases

/-- Claim C3: for every quick-test descriptor, URL-mode synthesis returns
exactly 4 test cases with ids `login-001`..`login-004`, each embedding the
same descriptor as its test-data payload and each with status `pending`. -/
theorem urlMode_four_fixed_cases (td : TestData) :
    (generateLoginTestCasesForURL td).length = 4 ∧
    (generateLoginTestCasesForURL td).map (fun c => c.id) =
      [strL "login-001", strL "login-002", strL "login-003", strL "login-004"] ∧
    (generateLoginTestCasesForURL td).map (fun c => c.testData) =
      [some td, some td, some td, some td] ∧
    (generateLoginTestCasesForURL td).map (fun c => c.status) =
      [some Status.pending, some Status.pending, some Status.pending, some Status.pending] :=
  ⟨rfl, rfl, rfl, rfl⟩

/-- Claim C5, counterexample: the input `shopping` contains none of the
keywords `login`, `cart`, `search`, yet keyword-mode synthesis returns the
two cart cases instead of the single generic fallback case. -/
theorem keywordMode_shopping_counterexample :
    containsSub (strL "login") (toLowerL (strL "shopping")) = false ∧
    containsSub (strL "cart") (toLowerL (strL "shopping")) = false ∧
    containsSub (strL "search") (toLowerL (strL "shopping")) = false ∧
    generateTestCasesFallback (strL "shopping") = generateCartTestCases ∧
    generateTestCasesFallback (strL "shopping") ≠ [generateGenericTestCase] :=
  ⟨by decide, by decide, by decide, by decide, by decide⟩

/-- Claim C5 as amended: keyword-mode synthesis checks the lower-cased text
independently for `login`, then `cart` or `shopping`, then `search`, returns
the concatenation (in check order) of the fixed canned case sets for each
matching check (login: 2 cases, cart: 2 cases, search: 1 case), and returns
exactly the one generic fallback case `generic-001` when no check matches;
the synthesizer is a pure function of the text, hence deterministic. -/
theorem keywordMode_structure (prd : List Char) :
    generateTestCasesFallback prd =
      (let lower := toLowerL prd
       let selected :=
         (if containsSub (strL "login") lower then generateLoginTestCases else []) ++
         (if containsSub (strL "cart") lower || containsSub (strL "shopping") lower then
            generateCartTestCases
          else []) ++
         (if containsSub (strL "search") lower then generateSearchTestCases else [])
       if selected.isEmpty then [generateGenericTestCase] else selected) ∧
    generateLoginTestCases.length = 2 ∧ generateCartTestCases.length = 2 ∧
    generateSearchTestCases.length = 1 ∧ generateGenericTestCase.id = strL "generic-001" := by
  refine ⟨?_, rfl, rfl, rfl, rfl⟩
  simp only [generateTestCasesFallback]
  cases h1 : containsSub (strL "login") (toLowerL prd) <;>
  cases h2 : containsSub (strL "cart") (toLowerL prd) <;>
  cases h3 : containsSub (strL "shopping") (toLowerL prd) <;>
  cases h4 : containsSub (strL "search") (toLowerL prd) <;>
    simp [h1, h2, h3, h4, generateLoginTestCases, generateCartTestCases,
      generateSearchTestCases, List.isEmpty_iff]

/-- Associativity of the overwrite preference. -/
theorem optOr_assoc (a b c : Option α) : optOr a (optOr b c) = optOr (optOr a b) c := by
  cases a <;> cases b <;> rfl

/-- Overwrite preference with nothing to fall back on. -/
theorem optOr_none (a : Option α) : optOr a none = a := by
  cases a <;> rfl

/-- Unfolding of `lastSome` on a cons in terms of the overwrite preference. -/
theorem lastSome_cons (f : α → Option β) (a : α) (l : List α) :
    lastSome f (a :: l) = optOr (lastSome f l) (f a) := by
  simp only [lastSome, optOr]

/-- The value of `lastSome` is the image of some element of the list. -/
theorem lastSome_eq_some (f : α → Option β) (l : List α) (b : β)
    (h : lastSome f l = some b) : ∃ a ∈ l, f a = some b := by
  induction l with
  | nil => simp [lastSome] at h
  | cons x xs ih =>
    rw [lastSome_cons] at h
    cases hx : lastSome f xs with
    | some v =>
      rw [hx] at h
      obtain ⟨a, ha, hfa⟩ := ih (by simpa [optOr] using h ▸ hx)
      exact ⟨a, List.mem_cons_of_mem x ha, hfa⟩
    | none =>
      rw [hx] at h
      simp only [optOr] at h
      exact ⟨x, List.mem_cons_self x xs, h⟩

/-- The `lastSome` fires exactly when `f` fires on some element. -/
theorem lastSome_isSome_iff (f : α → Option β) (l : List α) :
    (lastSome f l).isSome = true ↔ ∃ a ∈ l, (f a).isSome = true := by
  induction l with
  | nil => simp [lastSome]
  | cons x xs ih =>
    rw [lastSome_cons]
    cases hx : lastSome f xs with
    | some v => simp only [optOr]; simp [← ih, hx]
    | none =>
      simp only [optOr]
      constructor
      · intro h; exact ⟨x, List.mem_cons_self x xs, h⟩
      · rintro ⟨a, ha, hfa⟩
        rcases List.mem_cons.mp ha with rfl | ha2
        · exact hfa
        · exact absurd (ih.mpr ⟨a, ha2, hfa⟩) (by simp [hx])

/-- Field effect of one loop iteration of `parseTestDataFromPRD` on `url`. -/
theorem processLine_url (td : TestData) (l : List Char) :
    (processLine td l).url = optOr (lineUrl l) td.url := by
  simp only [processLine]
  cases lineUrl l <;> cases lineUsername l <;> cases linePassword l <;> rfl

/-- Field effect of one loop iteration on `username`. -/
theorem processLine_username (td : TestData) (l : List Char) :
    (processLine td l).username = optOr (lineUsername l) td.username := by
  simp only [processLine]
  cases lineUrl l <;> cases lineUsername l <;> cases linePassword l <;> rfl

/-- Field effect of one loop iteration on `password`. -/
theorem processLine_password (td : TestData) (l : List Char) :
    (processLine td l).password = optOr (linePassword l) td.password := by
  simp only [processLine]
  cases lineUrl l <;> cases lineUsername l <;> cases linePassword l <;> rfl

/-- The whole line loop keeps, per field, the capture of the last matching
line, falling back to the initial value. -/
theorem foldl_processLine (lines : List (List Char)) (td0 : TestData) :
    (lines.foldl processLine td0).url = optOr (lastSome lineUrl lines) td0.url ∧
    (lines.foldl processLine td0).username = optOr (lastSome lineUsername lines) td0.username ∧
    (lines.foldl processLine td0).password = optOr (lastSome linePassword lines) td0.password := by
  induction lines generalizing td0 with
  | nil => simp [lastSome, optOr]
  | cons l ls ih =>
    obtain ⟨ih1, ih2, ih3⟩ := ih (processLine td0 l)
    refine ⟨?_, ?_, ?_⟩ <;>
      simp only [List.foldl_cons, ih1, ih2, ih3, processLine_url, processLine_username,
        processLine_password, lastSome_cons, optOr_assoc]

/-- Whitespace characters are not case-folded images of `h`. -/
theorem not_space_of_toLower_h (c : Char) (h : c.toLower = 'h') : isJsSpace c = false := by
  by_contra hc
  have hc2 : isJsSpace c = true := by revert hc; cases isJsSpace c <;> simp
  simp only [isJsSpace, Bool.or_eq_true, decide_eq_true_eq] at hc2
  rcases hc2 with ((((((rfl | rfl) | rfl) | rfl) | rfl) | rfl) | rfl) <;> exact absurd h (by decide)

/-- Successful scheme matching means the text starts with an `h` (or `H`). -/
theorem stripScheme_head (t r : List Char) (h : stripScheme t = some r) :
    ∃ c cs, t = c :: cs ∧ c.toLower = 'h' := by
  simp only [stripScheme] at h
  split at h
  · exact absurd h (by simp)
  next r1 h1 =>
    cases t with
    | nil => rw [show strL "http" = ['h', 't', 't', 'p'] from rfl] at h1; simp [stripCI] at h1
    | cons c cs =>
      refine ⟨c, cs, rfl, ?_⟩
      by_contra hlow
      rw [show strL "http" = ['h', 't', 't', 'p'] from rfl] at h1
      simp [stripCI, hlow] at h1

/-- The capture of the URL pattern is never the empty string, because it
starts with the mandatory scheme. -/
theorem tryUrl_ne_nil (s u : List Char) (h : tryUrl s = some u) : u ≠ [] := by
  intro hu
  subst hu
  simp only [tryUrl] at h
  split at h
  · exact absurd h (by simp)
  next r h1 =>
    split at h
    · exact absurd h (by simp)
    next rest h2 =>
      split at h
      · exact absurd h (by simp)
      next c cs hrest =>
        split at h
        · exact absurd h (by simp)
        next hd =>
          obtain ⟨c2, cs2, ht, hlow⟩ := stripScheme_head _ _ h2
          rw [ht, List.takeWhile_cons, not_space_of_toLower_h c2 hlow] at h
          simp at h

/-- Any property of the matcher captures is preserved by leftmost search. -/
theorem firstMatch_preserves {P : β → Prop} (tryA : List Char → Option β)
    (hA : ∀ s b, tryA s = some b → P b) (s : List Char) (b : β)
    (h : firstMatch tryA s = some b) : P b := by
  induction s with
  | nil => exact hA [] b (by simpa [firstMatch] using h)
  | cons c rest ih =>
    simp only [firstMatch] at h
    cases ht : tryA (c :: rest) with
    | some r => rw [ht] at h; exact hA _ b (ht.trans (by simpa using h))
    | none => rw [ht] at h; exact ih h

/-- The line-level URL capture is never empty. -/
theorem lineUrl_ne_nil (l u : List Char) (h : lineUrl l = some u) : u ≠ [] :=
  firstMatch_preserves tryUrl (fun s b hb => tryUrl_ne_nil s b hb) l u h

/-- Helper: the accumulated `url` field of the line loop is the last line
capture. -/
theorem parse_fold_url (prd : List Char) :
    ((splitLines prd).foldl processLine {}).url = lastSome lineUrl (splitLines prd) := by
  obtain ⟨h1, -, -⟩ := foldl_processLine (splitLines prd) {}
  simpa [optOr_none] using h1

/-- Claim C10: when several lines match the same labelled pattern, the parsed
descriptor keeps, independently per field, the capture of the last matching
line (each later match overwrites the earlier one). -/
theorem parse_last_match_wins (prd : List Char) (td : TestData)
    (h : parseTestDataFromPRD prd = some td) :
    td.url = lastSome lineUrl (splitLines prd) ∧
    td.username = lastSome lineUsername (splitLines prd) ∧
    td.password = lastSome linePassword (splitLines prd) := by
  obtain ⟨h1, h2, h3⟩ := foldl_processLine (splitLines prd) {}
  simp only [parseTestDataFromPRD] at h
  split at h
  next u hu =>
    split at h
    · exact absurd h (by simp)
    · have htd : td = (splitLines prd).foldl processLine {} := by
        simpa using h.symm
      subst htd
      exact ⟨by simpa [optOr_none] using h1, by simpa [optOr_none] using h2,
        by simpa [optOr_none] using h3⟩
  next hu => exact absurd h (by simp)

/-- Witness for claim C10 at a concrete input with two `URL:` lines and two
`Password:` lines: the second captures win. -/
theorem parse_last_match_wins_witness :
    ({ url := some (strL "https://b/x"), username := none,
       password := some (strL "p2") } : TestData).url
        = lastSome lineUrl (splitLines (strL "URL: http://a\nURL: https://b/x\nPassword: p1\nPassword: p2")) ∧
    ({ url := some (strL "https://b/x"), username := none,
       password := some (strL "p2") } : TestData).username
        = lastSome lineUsername (splitLines (strL "URL: http://a\nURL: https://b/x\nPassword: p1\nPassword: p2")) ∧
    ({ url := some (strL "https://b/x"), username := none,
       password := some (strL "p2") } : TestData).password
        = lastSome linePassword (splitLines (strL "URL: http://a\nURL: https://b/x\nPassword: p1\nPassword: p2")) :=
  parse_last_match_wins
    (strL "URL: http://a\nURL: https://b/x\nPassword: p1\nPassword: p2")
    { url := some (strL "https://b/x"), username := none, password := some (strL "p2") }
    (by decide)

/-- Claim C4: `parseTestDataFromPRD` returns a descriptor exactly when some
line matches the case-insensitive `URL:`-plus-`http(s)://` pattern, and the
returned `url` field is exactly the capture of a matching line; with no
matching line it returns `none`, which is not an error. -/
theorem parse_url_contract (prd : List Char) :
    ((parseTestDataFromPRD prd).isSome = true ↔
      ∃ l ∈ splitLines prd, (lineUrl l).isSome = true) ∧
    ∀ td, parseTestDataFromPRD prd = some td →
      ∃ l ∈ splitLines prd, ∃ u, lineUrl l = some u ∧ td.url = some u := by
  have hfold := parse_fold_url prd
  constructor
  · constructor
    · intro hs
      simp only [parseTestDataFromPRD] at hs
      split at hs
      next u hu =>
        rw [← lastSome_isSome_iff]
        rw [hfold] at hu
        simp [hu]
      next hu => simp at hs
    · rintro ⟨l, hl, hfl⟩
      have hsome : (lastSome lineUrl (splitLines prd)).isSome = true :=
        (lastSome_isSome_iff _ _).mpr ⟨l, hl, hfl⟩
      obtain ⟨u, hu⟩ := Option.isSome_iff_exists.mp hsome
      have hne : u ≠ [] := by
        obtain ⟨l2, hl2, hfl2⟩ := lastSome_eq_some _ _ _ hu
        exact lineUrl_ne_nil l2 u hfl2
      have hemp : u.isEmpty = false := by
        cases u with
        | nil => exact absurd rfl hne
        | cons a as => rfl
      simp only [parseTestDataFromPRD]
      rw [show ((splitLines prd).foldl processLine {}).url = some u from hfold.trans hu]
      simp [hemp]
  · intro td h
    simp only [parseTestDataFromPRD] at h
    split at h
    next u hu =>
      split at h
      · exact absurd h (by simp)
      · have htd : td = (splitLines prd).foldl processLine {} := by
          simpa using h.symm
        obtain ⟨l2, hl2, hfl2⟩ := lastSome_eq_some _ _ _ (hfold ▸ hu)
        exact ⟨l2, hl2, u, hfl2, by rw [htd, hu]⟩
    next hu => exact absurd h (by simp)

/-- Witness for claim C4: a PRD containing a well-formed `URL:` line parses
to a descriptor whose `url` is the captured token. -/
theorem parse_url_contract_witness :
    ∃ l ∈ splitLines (strL "Test\nURL: https://example.com/login x"),
      ∃ u, lineUrl l = some u ∧
        ({ url := some (strL "https://example.com/login"), username := none,
           password := none } : TestData).url = some u :=
  (parse_url_contract (strL "Test\nURL: https://example.com/login x")).2
    { url := some (strL "https://example.com/login"), username := none, password := none }
    (by decide)

/-- Global-scan driver (the semantics of `matchAll` with the `g` flag): try
the matcher at every position from the left; on a match, record the capture
and continue after the matched slice.  Matches always consume at least one
character, so fuel equal to the string length suffices. -/
def scanAllAux (tryA : List Char → Option (List Char × List Char)) :
    Nat → List Char → List (List Char)
  | 0, _ => []
  | _ + 1, [] => []
  | fuel + 1, s@(_ :: rest) =>
    match tryA s with
    | some (cap, suffix) => cap :: scanAllAux tryA fuel suffix
    | none => scanAllAux tryA fuel rest

/-- All matches of a matcher over a string, in order. -/
def scanAll (tryA : List Char → Option (List Char × List Char)) (s : List Char) :
    List (List Char) :=
  scanAllAux tryA s.length s

/-- Matcher for the regex tail `\s*([^\n]+)`: greedy whitespace (which may
cross newlines), backtracking into trailing non-newline whitespace when
nothing else follows, then a maximal non-empty run of non-newline
characters.  Returns the capture and the rest of the string. -/
def wsCapture (rest : List Char) : Option (List Char × List Char) :=
  let afterWs := rest.dropWhile isJsSpace
  if afterWs.isEmpty then
    let rev := rest.reverse
    match rev.dropWhile (fun c => c = '\n') with
    | [] => none
    | c :: _ => some ([c], (rev.takeWhile (fun c => c = '\n')).reverse)
  else
    let cap := afterWs.takeWhile (fun c => c != '\n')
    some (cap, afterWs.drop cap.length)

/-- Matcher for `<base>[<optClass>]?:\s*([^\n]+)` (case-insensitive), the
shape of the three feature-label patterns. -/
def tryLabeledCapture (base optClass : List Char) (s : List Char) :
    Option (List Char × List Char) :=
  match stripCI base s with
  | none => none
  | some r1 =>
    match r1 with
    | [] => none
    | c :: r2 =>
      if optClass.contains c.toLower && (match r2 with | ':' :: _ => true | _ => false) then
        wsCapture r2.tail
      else if c = ':' then wsCapture r2
      else none

/-- Matcher for `acceptance criteri[a|on]:\s*([^\n]+)` (case-insensitive);
the character class is mandatory and one character wide. -/
def tryCriteriaLabel (s : List Char) : Option (List Char × List Char) :=
  match stripCI (strL "acceptance criteri") s with
  | none => none
  | some r1 =>
    match r1 with
    | c :: ':' :: r3 => if (strL "a|on").contains c.toLower then wsCapture r3 else none
    | _ => none

/-- Matcher for `<label>\s+([^\n]+)` (case-insensitive), the shape of the
`must`/`should` criteria patterns. -/
def tryKeywordCapture (label : List Char) (s : List Char) :
    Option (List Char × List Char) :=
  match stripCI label s with
  | none => none
  | some r1 =>
    match r1 with
    | c :: r2 => if isJsSpace c then wsCapture r2 else none
    | [] => none

/-- Alternation `want|need|would like` (case-insensitive, first alternative
that matches wins). -/
def tryStoryVerb (s : List Char) : Option (List Char) :=
  match stripCI (strL "want") s with
  | some r => some r
  | none =>
    match stripCI (strL "need") s with
    | some r => some r
    | none => stripCI (strL "would like") s

/-- Matcher for the user-story pattern
`as a[n]?\s+(\w+)[,\s]+i (want|need|would like)[^.]+` (case-insensitive).
Returns the whole matched slice (`match[0]`) and the rest. -/
def tryStory (s : List Char) : Option (List Char × List Char) :=
  match stripCI (strL "as a") s with
  | none => none
  | some r1 =>
    let r2 :=
      match r1 with
      | c :: rest =>
        if c.toLower = 'n' && (match rest with | d :: _ => isJsSpace d | [] => false) then rest
        else r1
      | [] => r1
    match r2 with
    | [] => none
    | c :: r3 =>
      if isJsSpace c then
        let afterWs := r3.dropWhile isJsSpace
        let w := afterWs.takeWhile isWordChar
        if w.isEmpty then none
        else
          let r4 := afterWs.drop w.length
          let sep := r4.takeWhile (fun c => c = ',' || isJsSpace c)
          if sep.isEmpty then none
          else
            match r4.drop sep.length with
            | i :: ' ' :: r6 =>
              if i.toLower = 'i' then
                match tryStoryVerb r6 with
                | none => none
                | some r7 =>
                  let body := r7.takeWhile (fun c => c != '.')
                  if body.isEmpty then none
                  else
                    let suffix := r7.drop body.length
                    some (s.take (s.length - suffix.length), suffix)
              else none
            | _ => none
      else none

/-- Raw feature list of `extractFeatures` before deduplication: the trimmed
captures of the three label patterns in pattern order, then the fixed
keyword-triggered literals. -/
def rawFeatures (prd : List Char) : List (List Char) :=
  (scanAll (tryLabeledCapture (strL "feature") (strL "s")) prd).map trimL ++
  (scanAll (tryLabeledCapture (strL "functionality") (strL "ies")) prd).map trimL ++
  (scanAll (tryLabeledCapture (strL "requirement") (strL "s")) prd).map trimL ++
  (if containsSub (strL "login") (toLowerL prd) then [strL "User Authentication"] else []) ++
  (if containsSub (strL "cart") (toLowerL prd) then [strL "Shopping Cart"] else []) ++
  (if containsSub (strL "checkout") (toLowerL prd) then [strL "Checkout Process"] else []) ++
  (if containsSub (strL "search") (toLowerL prd) then [strL "Search Functionality"] else [])

/-- Deduplication performed by `[...new Set(features)]`: keep the first
occurrence of each element, in encounter order. -/
def jsSetDedupAux [DecidableEq α] (seen : List α) : List α → List α
  | [] => []
  | x :: xs => if x ∈ seen then jsSetDedupAux seen xs else x :: jsSetDedupAux (x :: seen) xs

/-- Model of `[...new Set(l)]`. -/
def jsSetDedup [DecidableEq α] (l : List α) : List α := jsSetDedupAux [] l

/-- Model of `extractFeatures`. -/
def extractFeatures (prd : List Char) : List (List Char) := jsSetDedup (rawFeatures prd)

/-- Model of `extractUserStories`: all story-pattern matches (`match[0]`,
not trimmed, not deduplicated), or the fixed default story when none. -/
def extractUserStories (prd : List Char) : List (List Char) :=
  let stories := scanAll tryStory prd
  if stories.isEmpty then [strL "As a user, I want to use the system effectively"] else stories

/-- Model of `extractAcceptanceCriteria`: the trimmed captures of the three
criteria patterns in pattern order, not deduplicated. -/
def extractAcceptanceCriteria (prd : List Char) : List (List Char) :=
  (scanAll tryCriteriaLabel prd).map trimL ++
  (scanAll (tryKeywordCapture (strL "must")) prd).map trimL ++
  (scanAll (tryKeywordCapture (strL "should")) prd).map trimL

/-- First-occurrence deduplication as worded by the spec: walk the list and
append each element not yet kept. -/
def firstOccurrenceDedup [DecidableEq α] (l : List α) : List α :=
  l.foldl (fun acc x => if x ∈ acc then acc else acc ++ [x]) []

/-- The set-based dedup never emits an element of `seen`, and emits no
duplicates. -/
theorem jsSetDedupAux_nodup_and_fresh [DecidableEq α] (xs : List α) (seen : List α) :
    (jsSetDedupAux seen xs).Nodup ∧ ∀ x ∈ jsSetDedupAux seen xs, x ∉ seen := by
  induction xs generalizing seen with
  | nil => simp [jsSetDedupAux]
  | cons x xs ih =>
    by_cases hx : x ∈ seen
    · simpa [jsSetDedupAux, hx] using ih seen
    · obtain ⟨ihn, ihf⟩ := ih (x :: seen)
      refine ⟨?_, ?_⟩
      · simp only [jsSetDedupAux, if_neg hx, List.nodup_cons]
        exact ⟨fun hmem => (ihf x hmem) (List.mem_cons_self x seen), ihn⟩
      · intro y hy
        simp only [jsSetDedupAux, if_neg hx, List.mem_cons] at hy
        rcases hy with rfl | hy2
        · exact hx
        · exact fun hys => (ihf y hy2) (List.mem_cons_of_mem x hys)

/-- The set-based dedup depends on `seen` only through membership. -/
theorem jsSetDedupAux_congr [DecidableEq α] (xs : List α) (s1 s2 : List α)
    (h : ∀ y, y ∈ s1 ↔ y ∈ s2) : jsSetDedupAux s1 xs = jsSetDedupAux s2 xs := by
  induction xs generalizing s1 s2 with
  | nil => rfl
  | cons x xs ih =>
    by_cases hx : x ∈ s1
    · simp only [jsSetDedupAux, if_pos hx, if_pos ((h x).mp hx)]
      exact ih s1 s2 h
    · simp only [jsSetDedupAux, if_neg hx, if_neg (fun h2 => hx ((h x).mpr h2))]
      refine congrArg _ (ih (x :: s1) (x :: s2) ?_)
      intro y
      simp [h y]

/-- The set-based dedup computes the first-occurrence dedup. -/
theorem jsSetDedup_eq_firstOccurrenceDedup [DecidableEq α] (l : List α) :
    jsSetDedup l = firstOccurrenceDedup l := by
  suffices h : ∀ (xs acc : List α),
      xs.foldl (fun acc x => if x ∈ acc then acc else acc ++ [x]) acc
        = acc ++ jsSetDedupAux acc xs by
    simpa [jsSetDedup, firstOccurrenceDedup] using (h l []).symm
  intro xs
  induction xs with
  | nil => intro acc; simp [jsSetDedupAux]
  | cons x xs ih =>
    intro acc
    by_cases hx : x ∈ acc
    · simp [List.foldl_cons, hx, jsSetDedupAux, ih acc]
    · simp only [List.foldl_cons, if_neg hx, jsSetDedupAux, ih (acc ++ [x])]
      rw [jsSetDedupAux_congr xs (acc ++ [x]) (x :: acc) (by intro y; simp [or_comm])]
      simp

/-- Claim C8: the heuristic extractors are pure functions of the text (hence
deterministic); the features list is deduplicated keeping first occurrences
(so it has no duplicates), while the user-story and acceptance-criteria
lists are not deduplicated and can contain repeated entries, as witnessed on
concrete inputs. -/
theorem heuristics_dedup_asymmetry :
    (∀ prd, (extractFeatures prd).Nodup ∧
      extractFeatures prd = firstOccurrenceDedup (rawFeatures prd)) ∧
    extractUserStories (strL "As a user, I want x. As a user, I want x.") =
      [strL "As a user, I want x", strL "As a user, I want x"] ∧
    extractAcceptanceCriteria (strL "must pass\nmust pass") = [strL "pass", strL "pass"] := by
  refine ⟨fun prd => ⟨?_, jsSetDedup_eq_firstOccurrenceDedup _⟩, by decide, by decide⟩
  exact (jsSetDedupAux_nodup_and_fresh (rawFeatures prd) []).1

/-- Optional language tag of the fence regex
(`(?:javascript|typescript|js|ts)?`, alternatives tried in order) followed by
an optional newline: drop them from the front of the string. -/
def fenceTag (r : List Char) : List Char :=
  let r1 :=
    if isPrefixL (strL "javascript") r then r.drop 10
    else if isPrefixL (strL "typescript") r then r.drop 10
    else if isPrefixL (strL "js") r then r.drop 2
    else if isPrefixL (strL "ts") r then r.drop 2
    else r
  match r1 with
  | '\n' :: r2 => r2
  | _ => r1

/-- Dropping the tag never lengthens the string. -/
theorem fenceTag_length_le (r : List Char) : (fenceTag r).length ≤ r.length := by
  simp only [fenceTag]
  have hle : (if isPrefixL (strL "javascript") r then r.drop 10
      else if isPrefixL (strL "typescript") r then r.drop 10
      else if isPrefixL (strL "js") r then r.drop 2
      else if isPrefixL (strL "ts") r then r.drop 2
      else r).length ≤ r.length := by
    split_ifs <;> simp [List.length_drop]
  split
  next r2 heq =>
    rw [heq] at hle
    simp only [List.length_cons] at hle
    omega
  next => exact hle

/-- First replacement pass of `cleanGeneratedCode`: global removal of
matches of `\x60\x60\x60(?:javascript|typescript|js|ts)?\n?`. -/
def replFence1 : List Char → List Char
  | '\x60' :: '\x60' :: '\x60' :: rest => replFence1 (fenceTag rest)
  | c :: rest => c :: replFence1 rest
  | [] => []
termination_by s => s.length
decreasing_by
  · have := fenceTag_length_le rest
    simp only [List.length_cons]
    omega
  · simp [List.length_cons]

/-- Second replacement pass of `cleanGeneratedCode`: global removal of three
backticks plus an optional newline. -/
def replFence2 : List Char → List Char
  | '\x60' :: '\x60' :: '\x60' :: '\n' :: rest => replFence2 rest
  | '\x60' :: '\x60' :: '\x60' :: rest => replFence2 rest
  | c :: rest => c :: replFence2 rest
  | [] => []

/-- Model of `cleanGeneratedCode`: the two global replacements, then `trim`. -/
def cleanGeneratedCode (code : List Char) : List Char :=
  trimL (replFence2 (replFence1 code))

/-- The three-backtick fence opener. -/
def fenceTriple : List Char := ['\x60', '\x60', '\x60']

/-- Test for a string starting with two backticks. -/
def btHead2 : List Char → Bool
  | a :: b :: _ => a = '\x60' && b = '\x60'
  | _ => false

set_option maxHeartbeats 1000000 in
/-- Unfolding of the first pass at a position where no fence opens. -/
theorem replFence1_cons (c : Char) (rest : List Char)
    (h : ¬(c = '\x60' ∧ btHead2 rest = true)) :
    replFence1 (c :: rest) = c :: replFence1 rest := by
  rw [replFence1.eq_def]
  split
  all_goals first
    | rfl
    | (rename_i heq
       first
         | exact List.noConfusion heq
         | (rw [List.cons.injEq] at heq
            first
              | (obtain ⟨rfl, rfl⟩ := heq; rfl)
              | exact absurd ⟨heq.1, by rw [heq.2]; rfl⟩ h))

set_option maxHeartbeats 1000000 in
/-- Unfolding of the second pass at a position where no fence opens. -/
theorem replFence2_cons (c : Char) (rest : List Char)
    (h : ¬(c = '\x60' ∧ btHead2 rest = true)) :
    replFence2 (c :: rest) = c :: replFence2 rest := by
  rw [replFence2.eq_def]
  split
  all_goals first
    | rfl
    | (rename_i heq
       first
         | exact List.noConfusion heq
         | (rw [List.cons.injEq] at heq
            first
              | (obtain ⟨rfl, rfl⟩ := heq; rfl)
              | exact absurd ⟨heq.1, by rw [heq.2]; rfl⟩ h))

/-- Unfolding of the first pass on [] (the definition is by well-founded
recursion, so this is not definitional). -/
theorem replFence1_nil : replFence1 [] = [] := by
  rw [replFence1.eq_def]

/-- Unfolding of the first pass at an opening fence. -/
theorem replFence1_fence (rest : List Char) :
    replFence1 ('\x60' :: '\x60' :: '\x60' :: rest) = replFence1 (fenceTag rest) := by
  rw [replFence1.eq_def]
  rfl

/-- Elimination for a leading double backtick. -/
theorem btHead2_true (t : List Char) (h : btHead2 t = true) :
    ∃ r, t = '\x60' :: '\x60' :: r := by
  cases t with
  | nil => simp [btHead2] at h
  | cons a t2 =>
    cases t2 with
    | nil => simp [btHead2] at h
    | cons b t3 =>
      simp only [btHead2, Bool.and_eq_true, decide_eq_true_eq] at h
      exact ⟨t3, by rw [h.1, h.2]⟩

/-- A double-backtick prefix makes `btHead2` fire. -/
theorem btHead2_of_prefix (t : List Char) (h : ['\x60', '\x60'] <+: t) :
    btHead2 t = true := by
  obtain ⟨k, hk⟩ := h
  rw [← hk]
  rfl

/-- A prefix of a list is also a contiguous part of it. -/
theorem infixOfPre {l1 l2 : List α} (h : l1 <+: l2) : l1 <:+: l2 :=
  List.IsPrefix.isInfix h

/-- A suffix of a list is also a contiguous part of it. -/
theorem infixOfSuf {l1 l2 : List α} (h : l1 <:+ l2) : l1 <:+: l2 :=
  List.IsSuffix.isInfix h

/-- The first pass keeps a non-backtick head in place. -/
theorem replFence1_head (t : List Char) (h : ∀ r, t ≠ '\x60' :: r) :
    replFence1 t = [] ∨ ∃ c r, replFence1 t = c :: r ∧ c ≠ '\x60' := by
  cases t with
  | nil => exact Or.inl replFence1_nil
  | cons c rest =>
    have hc : c ≠ '\x60' := fun hcc => h rest (by rw [hcc])
    rw [replFence1_cons c rest (fun hand => hc hand.1)]
    exact Or.inr ⟨c, replFence1 rest, rfl, hc⟩

/-- The first pass never creates a leading double backtick where the input
had none. -/
theorem replFence1_btHead2 (t : List Char) (h : btHead2 t = false) :
    btHead2 (replFence1 t) = false := by
  cases t with
  | nil => rw [replFence1_nil]; rfl
  | cons c rest =>
    by_cases hc : c = '\x60'
    · subst hc
      have hrest : ∀ r, rest ≠ '\x60' :: r := by
        intro r hr
        rw [hr] at h
        simp [btHead2] at h
      have hcond : ¬('\x60' = '\x60' ∧ btHead2 rest = true) := by
        rintro ⟨-, hb⟩
        obtain ⟨r, hr⟩ := btHead2_true rest hb
        exact hrest ('\x60' :: r) hr
      rw [replFence1_cons _ _ hcond]
      rcases replFence1_head rest hrest with hnil | ⟨d, r, hdr, hd⟩
      · rw [hnil]; rfl
      · rw [hdr]
        simp [btHead2, hd]
    · rw [replFence1_cons c rest (fun hand => hc hand.1)]
      cases hfr : replFence1 rest with
      | nil => rfl
      | cons d r => simp [btHead2, hc]

/-- Key invariant for idempotence: the output of the first pass never
contains an unremoved fence opener. -/
theorem replFence1_noTriple (s : List Char) : ¬ fenceTriple <:+: replFence1 s := by
  suffices key : ∀ n s, s.length ≤ n → ¬ fenceTriple <:+: replFence1 s from
    key s.length s le_rfl
  intro n
  induction n with
  | zero =>
    intro s hs
    have hnil : s = [] := List.eq_nil_of_length_eq_zero (Nat.le_zero.mp hs)
    subst hnil
    rw [replFence1_nil]
    simp [fenceTriple, List.infix_nil]
  | succ n ih =>
    intro s hs
    cases s with
    | nil =>
      rw [replFence1_nil]
      simp [fenceTriple, List.infix_nil]
    | cons c rest =>
      by_cases hc : c = '\x60' ∧ btHead2 rest = true
      · obtain ⟨rfl, hb⟩ := hc
        obtain ⟨r, hr⟩ := btHead2_true rest hb
        subst hr
        rw [replFence1_fence]
        apply ih
        have hlen := fenceTag_length_le r
        simp only [List.length_cons] at hs
        omega
      · rw [replFence1_cons c rest hc]
        intro hin
        rcases List.infix_cons_iff.mp hin with hpre | htail
        · have hsplit : '\x60' = c ∧ ['\x60', '\x60'] <+: replFence1 rest := by
            simpa [fenceTriple, List.cons_prefix_cons] using hpre
          have hb2 : btHead2 (replFence1 rest) = true :=
            btHead2_of_prefix _ hsplit.2
          have hbrest : btHead2 rest = false := by
            cases hbr : btHead2 rest with
            | false => rfl
            | true => exact absurd ⟨hsplit.1.symm, hbr⟩ hc
          rw [replFence1_btHead2 rest hbrest] at hb2
          exact Bool.false_ne_true hb2
        · exact ih rest (by simp only [List.length_cons] at hs; omega) htail

/-- On fence-free input the first pass is the identity. -/
theorem replFence1_id_of_noTriple (s : List Char) (h : ¬ fenceTriple <:+: s) :
    replFence1 s = s := by
  induction s with
  | nil => exact replFence1_nil
  | cons c rest ih =>
    have hcond : ¬(c = '\x60' ∧ btHead2 rest = true) := by
      rintro ⟨rfl, hb⟩
      obtain ⟨r, hr⟩ := btHead2_true rest hb
      subst hr
      exact h (infixOfPre ⟨r, rfl⟩)
    rw [replFence1_cons c rest hcond, ih (fun hin => h (List.infix_cons hin))]

/-- On fence-free input the second pass is the identity. -/
theorem replFence2_id_of_noTriple (s : List Char) (h : ¬ fenceTriple <:+: s) :
    replFence2 s = s := by
  induction s with
  | nil => rfl
  | cons c rest ih =>
    have hcond : ¬(c = '\x60' ∧ btHead2 rest = true) := by
      rintro ⟨rfl, hb⟩
      obtain ⟨r, hr⟩ := btHead2_true rest hb
      subst hr
      exact h (infixOfPre ⟨r, rfl⟩)
    rw [replFence2_cons c rest hcond, ih (fun hin => h (List.infix_cons hin))]

/-- Dropping a satisfied prefix twice is the same as dropping it once. -/
theorem dropWhile_dropWhile_self (p : α → Bool) (l : List α) :
    List.dropWhile p (List.dropWhile p l) = List.dropWhile p l := by
  induction l with
  | nil => rfl
  | cons x xs ih =>
    rw [List.dropWhile_cons]
    by_cases hx : p x = true
    · rw [if_pos hx]
      exact ih
    · rw [if_neg hx, List.dropWhile_cons, if_neg hx]

/-- Trimming is idempotent. -/
theorem trimL_idem (s : List Char) : trimL (trimL s) = trimL s := by
  unfold trimL
  generalize hA : s.dropWhile isJsSpace = A
  have hAd : A.dropWhile isJsSpace = A := by
    rw [← hA]
    exact dropWhile_dropWhile_self _ _
  generalize hB : A.reverse.dropWhile isJsSpace = B
  have hBd : B.dropWhile isJsSpace = B := by
    rw [← hB]
    exact dropWhile_dropWhile_self _ _
  have hpre : B.reverse <+: A := by
    have hsuf : B <:+ A.reverse := by
      rw [← hB]
      exact List.dropWhile_suffix _
    have hp := List.reverse_prefix.mpr hsuf
    simpa using hp
  have h1 : B.reverse.dropWhile isJsSpace = B.reverse := by
    cases hBr : B.reverse with
    | nil => rfl
    | cons c r =>
      obtain ⟨k, hk⟩ := hpre
      rw [hBr] at hk
      have hk2 : A = c :: (r ++ k) := by rw [← hk]; rfl
      by_cases hpc : isJsSpace c = true
      · exfalso
        rw [hk2, List.dropWhile_cons, if_pos hpc] at hAd
        have hlen := congrArg List.length hAd
        have hle : (List.dropWhile isJsSpace (r ++ k)).length ≤ (r ++ k).length :=
          (List.dropWhile_suffix _).length_le
        simp only [List.length_cons, List.length_append] at hlen hle
        omega
      · rw [List.dropWhile_cons, if_neg hpc]
  rw [h1, List.reverse_reverse, hBd]

/-- The trimmed string is an infix of the original. -/
theorem trimL_within (s : List Char) : trimL s <:+: s := by
  unfold trimL
  have h1 : (s.dropWhile isJsSpace) <:+ s := List.dropWhile_suffix _
  have h2 : ((s.dropWhile isJsSpace).reverse.dropWhile isJsSpace) <:+
      (s.dropWhile isJsSpace).reverse := List.dropWhile_suffix _
  have h3 : ((s.dropWhile isJsSpace).reverse.dropWhile isJsSpace).reverse <+:
      (s.dropWhile isJsSpace) := by
    have hp := List.reverse_prefix.mpr h2
    simpa using hp
  exact (infixOfPre h3).trans (infixOfSuf h1)

/-- Claim C9: markdown fence stripping is idempotent — cleaning an already
cleaned string returns it unchanged. -/
theorem cleanGeneratedCode_idempotent (s : List Char) :
    cleanGeneratedCode (cleanGeneratedCode s) = cleanGeneratedCode s := by
  have h1 : ¬ fenceTriple <:+: replFence1 s := replFence1_noTriple s
  have h2 : replFence2 (replFence1 s) = replFence1 s := replFence2_id_of_noTriple _ h1
  have hclean : cleanGeneratedCode s = trimL (replFence1 s) := by
    unfold cleanGeneratedCode
    rw [h2]
  have h3 : ¬ fenceTriple <:+: cleanGeneratedCode s := by
    rw [hclean]
    exact fun hin => h1 (hin.trans (trimL_within _))
  calc cleanGeneratedCode (cleanGeneratedCode s)
      = trimL (replFence2 (replFence1 (cleanGeneratedCode s))) := rfl
    _ = trimL (cleanGeneratedCode s) := by
        rw [replFence1_id_of_noTriple _ h3, replFence2_id_of_noTriple _ h3]
    _ = trimL (trimL (replFence1 s)) := by rw [hclean]
    _ = trimL (replFence1 s) := trimL_idem _
    _ = cleanGeneratedCode s := hclean.symm

/-- Model of the `IPRDAnalysis` record. -/
structure IPRDAnalysis where
  features : List (List Char)
  userStories : List (List Char)
  acceptanceCriteria : List (List Char)
  testCases : List TestCase
deriving DecidableEq, Repr

/-- Outcome of the abstract `fetch` round trip to the OpenAI endpoint: the
promise rejects, or the response has a non-success status, or it succeeds
with a body; a successful body is modelled by the outcome of extracting
`choices[0].message.content` from it (`none` when the body is not parseable
JSON of the expected shape, in which case the source throws). -/
inductive FetchOutcome where
  | reject
  | notOk (statusText : List Char)
  | ok (content : Option (List Char))
deriving Repr

/-- Ambient environment of the remote paths: the credential field
`openaiApiKey` (as read at call time), the configured model, the transport
outcome, and — the response string being abstract — the outcome of
`JSON.parse` of a content string into the expected analysis shape. -/
structure RemoteEnv where
  openaiApiKey : Option (List Char)
  openaiModelCfg : Option (List Char)
  fetch : FetchOutcome
  parseAnalysis : List Char → Option IPRDAnalysis

/-- JavaScript truthiness of an optional string (`undefined` and the empty
string are falsy). -/
def keyTruthy (k : Option (List Char)) : Bool :=
  match k with
  | some s => !s.isEmpty
  | none => false

/-- Truthiness of `testData?.url`. -/
def tdUrlTruthy (o : Option TestData) : Bool :=
  match o with
  | some td =>
    match td.url with
    | some u => !u.isEmpty
    | none => false
  | none => false

/-- Model of `callOpenAIWithModel`: throws when no credential is configured,
when the transport fails or reports a non-success status, or when the body
cannot be read as the expected shape; otherwise returns the content string.
The error payloads abbreviate the source messages. -/
def callOpenAIWithModel (env : RemoteEnv) (prompt systemPrompt model : List Char) :
    Except (List Char) (List Char) :=
  if !keyTruthy env.openaiApiKey then
    .error (strL "OpenAI API key not configured. Please set it in settings.")
  else
    match env.fetch with
    | .reject => .error (strL "fetch rejected")
    | .notOk st => .error (strL "OpenAI API error: " ++ st)
    | .ok none => .error (strL "response body not of the expected shape")
    | .ok (some content) => .ok content

/-- Model selection `configurationService?.getValue(...) || this.defaultModel`. -/
def modelOf (env : RemoteEnv) : List Char :=
  match env.openaiModelCfg with
  | some m => if m.isEmpty then strL "gpt-4" else m
  | none => strL "gpt-4"

/-- System prompt of `analyzePRD`. -/
def analysisSystemPrompt : List Char :=
  strL "You are an expert QA automation engineer. Analyze the given PRD and generate comprehensive test cases.\n\t\tReturn the response in JSON format with the following structure:\n\t\t\x7b\n\t\t\t\"features\": [\"list of features\"],\n\t\t\t\"userStories\": [\"list of user stories\"],\n\t\t\t\"acceptanceCriteria\": [\"list of acceptance criteria\"],\n\t\t\t\"testCases\": [\n\t\t\t\t\x7b\n\t\t\t\t\t\"id\": \"unique-id\",\n\t\t\t\t\t\"name\": \"test name\",\n\t\t\t\t\t\"description\": \"test description\",\n\t\t\t\t\t\"steps\": [\"step 1\", \"step 2\"],\n\t\t\t\t\t\"expectedResult\": \"expected outcome\"\n\t\t\t\t\x7d\n\t\t\t]\n\t\t\x7d"

/-- User prompt of `analyzePRD`. -/
def analyzePrompt (prd : List Char) : List Char :=
  strL "Analyze this PRD and generate comprehensive test cases:\n\n" ++ prd

/-- System prompt of `generateCypressCode`. -/
def cypressSystemPrompt : List Char :=
  strL "You are an expert Cypress automation engineer. Generate clean, production-ready Cypress test code.\n\t\tUse modern Cypress best practices including:\n\t\t- Proper selectors (data-cy, data-test, id, or class attributes)\n\t\t- Appropriate assertions\n\t\t- Clear comments\n\t\t- Error handling\n\t\t- Proper waits and timeouts\n\t\tIf the test case includes a URL, use cy.visit() with that exact URL."

/-- User prompt of `generateCypressCode`. -/
def cypressPrompt (testCase : TestCase) : List Char :=
  strL "Generate Cypress test code for:\n\t\tTest Name: " ++
  testCase.name ++
  strL "\n\t\tDescription: " ++
  testCase.description ++
  strL "\n\t\tSteps: " ++
  List.intercalate (strL ", ") testCase.steps ++
  strL "\n\t\tExpected Result: " ++
  testCase.expectedResult

/-- System prompt of `generatePlaywrightCode`. -/
def playwrightSystemPrompt : List Char :=
  strL "You are an expert Playwright automation engineer. Generate clean, production-ready Playwright test code.\n\t\tUse modern Playwright best practices including:\n\t\t- Proper locators\n\t\t- Async/await patterns\n\t\t- Appropriate assertions with expect\n\t\t- Error handling\n\t\t- Page object pattern when appropriate"

/-- User prompt of `generatePlaywrightCode`. -/
def playwrightPrompt (testCase : TestCase) : List Char :=
  strL "Generate Playwright test code for:\n\t\tTest Name: " ++
  testCase.name ++
  strL "\n\t\tDescription: " ++
  testCase.description ++
  strL "\n\t\tSteps: " ++
  List.intercalate (strL ", ") testCase.steps ++
  strL "\n\t\tExpected Result: " ++
  testCase.expectedResult

/-- Model of `generateCypressCodeForURL`: the fixed Cypress URL template. -/
def generateCypressCodeForURL (testCase : TestCase) (testData : TestData) : List Char :=
  strL "describe(\x27" ++
  testCase.name ++
  strL "\x27, () => \x7b\n\tit(\x27" ++
  testCase.description ++
  strL "\x27, () => \x7b\n\t\t// 设置慢速执行，便于观察\n\t\tcy.viewport(1280, 720);\n\t\t\n\t\t// Navigate to the login page\n\t\tcy.visit(\x27" ++
  optStr testData.url ++
  strL "\x27);\n\t\tcy.wait(2000); // 等待页面加载\n\t\t\n\t\t// 高亮显示用户名输入框\n\t\tcy.get(\x27#username\x27).should(\x27be.visible\x27).focus();\n\t\tcy.wait(1000); // 暂停1秒\n\t\t\n\t\t// 慢速输入用户名\n\t\tcy.get(\x27#username\x27).clear().type(\x27" ++
  optStr testData.username ++
  strL "\x27, \x7b delay: 100 \x7d);\n\t\tcy.wait(1000);\n\t\t\n\t\t// 高亮显示密码输入框\n\t\tcy.get(\x27#password\x27).focus();\n\t\tcy.wait(1000);\n\t\t\n\t\t// 慢速输入密码\n\t\tcy.get(\x27#password\x27).clear().type(\x27" ++
  optStr testData.password ++
  strL "\x27, \x7b delay: 100 \x7d);\n\t\tcy.wait(1000);\n\t\t\n\t\t// 点击登录按钮前暂停\n\t\tcy.get(\x27button[type=\"submit\"]\x27).should(\x27be.visible\x27);\n\t\tcy.wait(1500);\n\t\t\n\t\t// 点击登录\n\t\tcy.get(\x27button[type=\"submit\"]\x27).click();\n\t\tcy.wait(2000);\n\t\t\n\t\t// 验证结果\n\t\tcy.url().should(\x27include\x27, \x27/secure\x27);\n\t\x7d);\n\t\x7d);"

/-- Model of `generatePlaywrightCodeForURL`: fixed head, a success-scenario
chunk appended when the case name contains `successful` or `valid`, and the
fixed closing chunk. -/
def generatePlaywrightCodeForURL (testCase : TestCase) (testData : TestData) : List Char :=
  (strL "import \x7b test, expect \x7d from \x27@playwright/test\x27;\n\t\n\t// 配置慢速执行\n\ttest.use(\x7b\n\t  // 每个操作延迟500ms\n\t  launchOptions: \x7b\n\t\tslowMo: 500,\n\t  \x7d,\n\t  // 视口大小\n\t  viewport: \x7b width: 1280, height: 720 \x7d,\n\t  // 录制视频\n\t  video: \x27on\x27,\n\t  // 截图\n\t  screenshot: \x27on\x27,\n\t\x7d);\n\t\n\ttest(\x27" ++
  testCase.name ++
  strL "\x27, async (\x7b page \x7d) => \x7b\n\t  // 设置默认超时\n\t  test.setTimeout(60000);\n\t  \n\t  // 导航到登录页面\n\t  await page.goto(\x27" ++
  optStr testData.url ++
  strL "\x27);\n\t  console.log(\x27📍 Navigated to: " ++
  optStr testData.url ++
  strL "\x27);\n\t  \n\t  // 等待页面完全加载\n\t  await page.waitForLoadState(\x27networkidle\x27);\n\t  await page.waitForTimeout(2000); // 额外等待2秒\n\t  \n\t  // 截图 - 初始页面\n\t  await page.screenshot(\x7b path: \x27login-page.png\x27 \x7d);\n\t") ++
  (if containsSub (strL "successful") (toLowerL testCase.name) ||
      containsSub (strL "valid") (toLowerL testCase.name) then
    strL "\n\t  \n\t  // 🔍 查找用户名输入框\n\t  console.log(\x27🔍 Finding username input...\x27);\n\t  const usernameInput = page.locator(\x27#username\x27);\n\t  await usernameInput.scrollIntoViewIfNeeded();\n\t  await usernameInput.hover(); // 悬停效果\n\t  await page.waitForTimeout(1000);\n\t  \n\t  // ✏️ 输入用户名\n\t  console.log(\x27✏️ Typing username: " ++
    optStr testData.username ++
    strL "\x27);\n\t  await usernameInput.click();\n\t  await usernameInput.fill(\x27\x27); // 先清空\n\t  \n\t  // 逐字输入，模拟真人打字\n\t  for (const char of \x27" ++
    optStr testData.username ++
    strL "\x27) \x7b\n\t\tawait usernameInput.type(char, \x7b delay: 100 \x7d);\n\t  \x7d\n\t  await page.waitForTimeout(1000);\n\t  \n\t  // 🔍 查找密码输入框\n\t  console.log(\x27🔍 Finding password input...\x27);\n\t  const passwordInput = page.locator(\x27#password\x27);\n\t  await passwordInput.scrollIntoViewIfNeeded();\n\t  await passwordInput.hover();\n\t  await page.waitForTimeout(1000);\n\t  \n\t  // ✏️ 输入密码\n\t  console.log(\x27✏️ Typing password...\x27);\n\t  await passwordInput.click();\n\t  await passwordInput.fill(\x27\x27);\n\t  \n\t  // 逐字输入密码\n\t  for (const char of \x27" ++
    optStr testData.password ++
    strL "\x27) \x7b\n\t\tawait passwordInput.type(char, \x7b delay: 100 \x7d);\n\t  \x7d\n\t  await page.waitForTimeout(1500);\n\t  \n\t  // 📸 截图 - 填写完成\n\t  await page.screenshot(\x7b path: \x27filled-form.png\x27 \x7d);\n\t  \n\t  // 🖱️ 查找并点击登录按钮\n\t  console.log(\x27🖱️ Finding login button...\x27);\n\t  const loginButton = page.locator(\x27button[type=\"submit\"]\x27);\n\t  await loginButton.scrollIntoViewIfNeeded();\n\t  await loginButton.hover(); // 悬停在按钮上\n\t  await page.waitForTimeout(1000);\n\t  \n\t  // 高亮显示按钮\n\t  await loginButton.evaluate(el => \x7b\n\t\tel.style.border = \x273px solid red\x27;\n\t\tel.style.boxShadow = \x270 0 10px red\x27;\n\t  \x7d);\n\t  await page.waitForTimeout(1000);\n\t  \n\t  console.log(\x27🚀 Clicking login button...\x27);\n\t  await loginButton.click();\n\t  \n\t  // 等待导航\n\t  await page.waitForTimeout(2000);\n\t  \n\t  // 验证登录成功\n\t  console.log(\x27✅ Verifying successful login...\x27);\n\t  await expect(page).toHaveURL(/.*secure/);\n\t  \n\t  // 📸 最终截图\n\t  await page.screenshot(\x7b path: \x27login-success.png\x27 \x7d);\n\t  console.log(\x27✅ Test completed successfully!\x27);"
   else []) ++
  strL "\n\t\x7d);"

/-- Model of `extractElement`: keyword-based selector choice. -/
def extractElement (step : List Char) : List Char :=
  if containsSub (strL "button") (toLowerL step) then strL "[data-test=\"button\"]"
  else if containsSub (strL "input") (toLowerL step) then strL "[data-test=\"input\"]"
  else if containsSub (strL "email") (toLowerL step) then strL "[data-test=\"email\"]"
  else if containsSub (strL "password") (toLowerL step) then strL "[data-test=\"password\"]"
  else if containsSub (strL "search") (toLowerL step) then strL "[data-test=\"search\"]"
  else strL "[data-test=\"element\"]"

/-- Model of `stepToCypressCommand`: five keyword-classified command
templates, with a literal comment echoing unrecognized steps. -/
def stepToCypressCommand (step : List Char) : List Char :=
  let stepLower := toLowerL step
  if containsSub (strL "navigate") stepLower || containsSub (strL "go to") stepLower then
    strL "cy.visit(\x27/\x27);"
  else if containsSub (strL "click") stepLower then
    strL "cy.get(\x27" ++ extractElement step ++ strL "\x27).click();"
  else if containsSub (strL "enter") stepLower || containsSub (strL "type") stepLower then
    strL "cy.get(\x27" ++ extractElement step ++ strL "\x27).type(\x27test data\x27);"
  else if containsSub (strL "select") stepLower then
    strL "cy.get(\x27" ++ extractElement step ++ strL "\x27).select(\x27option\x27);"
  else if containsSub (strL "verify") stepLower || containsSub (strL "check") stepLower then
    strL "cy.get(\x27[data-test]\x27).should(\x27exist\x27);"
  else
    strL "// " ++ step

/-- Model of `stepToPlaywrightCommand`: four keyword-classified command
templates (there is no `select` branch), with the comment fallback. -/
def stepToPlaywrightCommand (step : List Char) : List Char :=
  let stepLower := toLowerL step
  if containsSub (strL "navigate") stepLower || containsSub (strL "go to") stepLower then
    strL "await page.goto(\x27/\x27);"
  else if containsSub (strL "click") stepLower then
    strL "await page.click(\x27" ++ extractElement step ++ strL "\x27);"
  else if containsSub (strL "enter") stepLower || containsSub (strL "type") stepLower then
    strL "await page.fill(\x27" ++ extractElement step ++ strL "\x27, \x27test data\x27);"
  else if containsSub (strL "verify") stepLower || containsSub (strL "check") stepLower then
    strL "await expect(page.locator(\x27[data-test]\x27)).toBeVisible();"
  else
    strL "// " ++ step

/-- Model of `expectedResultToAssertion`. -/
def expectedResultToAssertion (result : List Char) : List Char :=
  let resultLower := toLowerL result
  if containsSub (strL "redirect") resultLower then
    strL "cy.url().should(\x27include\x27, \x27/dashboard\x27);"
  else if containsSub (strL "display") resultLower || containsSub (strL "show") resultLower then
    strL "cy.get(\x27[data-test=\"result\"]\x27).should(\x27be.visible\x27);"
  else if containsSub (strL "error") resultLower then
    strL "cy.get(\x27[data-test=\"error\"]\x27).should(\x27contain\x27, \x27Error\x27);"
  else
    strL "cy.get(\x27[data-test=\"success\"]\x27).should(\x27exist\x27);"

/-- Model of `expectedResultToPlaywrightAssertion`. -/
def expectedResultToPlaywrightAssertion (result : List Char) : List Char :=
  let resultLower := toLowerL result
  if containsSub (strL "redirect") resultLower then
    strL "await expect(page).toHaveURL(/.*dashboard/);"
  else if containsSub (strL "display") resultLower || containsSub (strL "show") resultLower then
    strL "await expect(page.locator(\x27[data-test=\"result\"]\x27)).toBeVisible();"
  else if containsSub (strL "error") resultLower then
    strL "await expect(page.locator(\x27[data-test=\"error\"]\x27)).toContainText(\x27Error\x27);"
  else
    strL "await expect(page.locator(\x27[data-test=\"success\"]\x27)).toBeVisible();"

/-- Model of `generateCypressCodeFallback`: the deterministic step-by-step
translator for Cypress. -/
def generateCypressCodeFallback (testCase : TestCase) : List Char :=
  if tdUrlTruthy testCase.testData then
    generateCypressCodeForURL testCase (testCase.testData.getD {})
  else
    let steps := List.intercalate (strL "\n    ") (testCase.steps.map stepToCypressCommand)
    let assertions := expectedResultToAssertion testCase.expectedResult
    strL "describe(\x27" ++
    testCase.name ++
    strL "\x27, () => \x7b\n  beforeEach(() => \x7b\n    cy.visit(\x27/\x27);\n  \x7d);\n\n  it(\x27" ++
    testCase.description ++
    strL "\x27, () => \x7b\n    " ++
    steps ++
    strL "\n    \n    // Verify: " ++
    testCase.expectedResult ++
    strL "\n    " ++
    assertions ++
    strL "\n  \x7d);\n\x7d);"

/-- Model of `generatePlaywrightCodeFallback`: the deterministic
step-by-step translator for Playwright. -/
def generatePlaywrightCodeFallback (testCase : TestCase) : List Char :=
  if tdUrlTruthy testCase.testData then
    generatePlaywrightCodeForURL testCase (testCase.testData.getD {})
  else
    let steps := List.intercalate (strL "\n    ") (testCase.steps.map stepToPlaywrightCommand)
    let assertions := expectedResultToPlaywrightAssertion testCase.expectedResult
    strL "import \x7b test, expect \x7d from \x27@playwright/test\x27;\n\ntest.describe(\x27" ++
    testCase.name ++
    strL "\x27, () => \x7b\n  test(\x27" ++
    testCase.description ++
    strL "\x27, async (\x7b page \x7d) => \x7b\n    await page.goto(\x27/\x27);\n    " ++
    steps ++
    strL "\n    \n    // Verify: " ++
    testCase.expectedResult ++
    strL "\n    " ++
    assertions ++
    strL "\n  \x7d);\n\x7d);"

/-- Model of `generateCypressCode`: bypass to the URL template when the test
case carries a truthy URL payload, otherwise one remote round trip with
markdown-fence cleanup, falling back to the deterministic translator. -/
def generateCypressCode (env : RemoteEnv) (testCase : TestCase) : List Char :=
  if tdUrlTruthy testCase.testData then
    generateCypressCodeForURL testCase (testCase.testData.getD {})
  else
    match callOpenAIWithModel env (cypressPrompt testCase) cypressSystemPrompt (modelOf env) with
    | .ok code => cleanGeneratedCode code
    | .error _ =>
      if tdUrlTruthy testCase.testData then
        generateCypressCodeForURL testCase (testCase.testData.getD {})
      else
        generateCypressCodeFallback testCase

/-- Model of `generatePlaywrightCode`, symmetric to `generateCypressCode`. -/
def generatePlaywrightCode (env : RemoteEnv) (testCase : TestCase) : List Char :=
  if tdUrlTruthy testCase.testData then
    generatePlaywrightCodeForURL testCase (testCase.testData.getD {})
  else
    match callOpenAIWithModel env (playwrightPrompt testCase) playwrightSystemPrompt (modelOf env) with
    | .ok code => cleanGeneratedCode code
    | .error _ =>
      if tdUrlTruthy testCase.testData then
        generatePlaywrightCodeForURL testCase (testCase.testData.getD {})
      else
        generatePlaywrightCodeFallback testCase

/-- Stamping of remote test cases: every returned case gets status
`pending`, overriding whatever the response supplied. -/
def stampPending (a : IPRDAnalysis) : IPRDAnalysis :=
  { a with testCases := a.testCases.map (fun tc => { tc with status := some .pending }) }

/-- Model of `analyzePRDFallback`: the deterministic analysis path. -/
def analyzePRDFallback (prd : List Char) : IPRDAnalysis :=
  match parseTestDataFromPRD prd with
  | some td =>
    { features := [strL "Login Authentication"],
      userStories := [strL "As a user, I want to login to " ++ optStr td.url],
      acceptanceCriteria :=
        [ strL "Valid credentials allow successful login",
          strL "Invalid credentials show appropriate error messages",
          strL "Empty fields show validation messages" ],
      testCases := generateLoginTestCasesForURL td }
  | none =>
    { features := extractFeatures prd,
      userStories := extractUserStories prd,
      acceptanceCriteria := extractAcceptanceCriteria prd,
      testCases := generateTestCasesFallback prd }

/-- Model of `analyzePRD`: the URL-descriptor early return, then the remote
round trip (transport, JSON parse and status stamping all inside one
try), with the deterministic fallback invoked by the catch. -/
def analyzePRD (env : RemoteEnv) (prd : List Char) : IPRDAnalysis :=
  match parseTestDataFromPRD prd with
  | some td =>
    { features := [strL "Login Authentication"],
      userStories := [strL "As a user, I want to login to " ++ optStr td.url],
      acceptanceCriteria :=
        [ strL "Valid credentials allow successful login",
          strL "Invalid credentials show appropriate error messages",
          strL "Empty fields show validation messages" ],
      testCases := generateLoginTestCasesForURL td }
  | none =>
    match callOpenAIWithModel env (analyzePrompt prd) analysisSystemPrompt (modelOf env) with
    | .ok content =>
      match env.parseAnalysis content with
      | some analysis => stampPending analysis
      | none => analyzePRDFallback prd
    | .error _ => analyzePRDFallback prd

/-- Claim C1: when the test case carries a test-data payload with a (truthy)
URL, both code generators return the deterministic URL-template code, and
the result does not depend on the remote environment (available, absent or
failing) — the remote capability is bypassed. -/
theorem codegen_url_bypass (env env2 : RemoteEnv) (testCase : TestCase) (td : TestData)
    (h1 : testCase.testData = some td) (h2 : tdUrlTruthy (some td) = true) :
    generateCypressCode env testCase = generateCypressCodeForURL testCase td ∧
    generatePlaywrightCode env testCase = generatePlaywrightCodeForURL testCase td ∧
    generateCypressCode env testCase = generateCypressCode env2 testCase ∧
    generatePlaywrightCode env testCase = generatePlaywrightCode env2 testCase := by
  have ht : tdUrlTruthy testCase.testData = true := by rw [h1]; exact h2
  have hg : testCase.testData.getD {} = td := by rw [h1]; rfl
  refine ⟨?_, ?_, ?_, ?_⟩ <;>
    simp only [generateCypressCode, generatePlaywrightCode, ht, if_true, hg]

/-- Sample quick-test descriptor used by concrete witnesses. -/
def sampleUrlData : TestData :=
  { url := some (strL "https://example.com/login"), username := some (strL "u"),
    password := some (strL "p") }

/-- Sample URL-mode test case used by concrete witnesses. -/
def sampleUrlCase : TestCase :=
  { id := strL "login-001", name := strL "Successful Login with Valid Credentials",
    description := strL "d", steps := [strL "Navigate to https://example.com/login"],
    expectedResult := strL "e", status := some .pending, testData := some sampleUrlData }

/-- Remote environment with no credential and a failing transport. -/
def envAbsent : RemoteEnv := ⟨none, none, .reject, fun _ => none⟩

/-- Remote environment with a credential and a successful round trip. -/
def envOk : RemoteEnv :=
  ⟨some (strL "key"), some (strL "gpt-4"), .ok (some (strL "remote code")), fun _ => none⟩

/-- Witness for claim C1 at a concrete URL-bearing test case, against both a
failing and a successful remote environment. -/
theorem codegen_url_bypass_witness :
    generateCypressCode envAbsent sampleUrlCase = generateCypressCodeForURL sampleUrlCase sampleUrlData ∧
    generatePlaywrightCode envAbsent sampleUrlCase = generatePlaywrightCodeForURL sampleUrlCase sampleUrlData ∧
    generateCypressCode envAbsent sampleUrlCase = generateCypressCode envOk sampleUrlCase ∧
    generatePlaywrightCode envAbsent sampleUrlCase = generatePlaywrightCode envOk sampleUrlCase :=
  codegen_url_bypass envAbsent envOk sampleUrlCase sampleUrlData rfl (by decide)

/-- Claim C2: the remote client fails exactly when no credential is
configured, the transport fails or reports a non-success status, or the
body is not parseable into the expected shape; it has no fallback of its
own, and `analyzePRD` (the caller) catches every such failure — including a
content string that fails to parse — and returns the deterministic
fallback analysis, so it always returns an analysis result. -/
theorem remote_failure_and_fallback (env : RemoteEnv) (prompt systemPrompt model prd : List Char) :
    ((callOpenAIWithModel env prompt systemPrompt model).isOk = false ↔
      keyTruthy env.openaiApiKey = false ∨ env.fetch = .reject ∨
      (∃ st, env.fetch = .notOk st) ∨ env.fetch = .ok none) ∧
    (parseTestDataFromPRD prd = none →
      (callOpenAIWithModel env (analyzePrompt prd) analysisSystemPrompt (modelOf env)).isOk = false →
      analyzePRD env prd = analyzePRDFallback prd) ∧
    (parseTestDataFromPRD prd = none →
      ∀ content,
        callOpenAIWithModel env (analyzePrompt prd) analysisSystemPrompt (modelOf env) = .ok content →
        env.parseAnalysis content = none →
        analyzePRD env prd = analyzePRDFallback prd) := by
  refine ⟨?_, ?_, ?_⟩
  · simp only [callOpenAIWithModel]
    cases hk : keyTruthy env.openaiApiKey with
    | false => simp [Except.isOk, Except.toBool]
    | true => cases hf : env.fetch with
      | reject => simp [Except.isOk, Except.toBool]
      | notOk st => simp [Except.isOk, Except.toBool]
      | ok content => cases content <;> simp [Except.isOk, Except.toBool]
  · intro hp hfail
    simp only [analyzePRD, hp]
    cases hc : callOpenAIWithModel env (analyzePrompt prd) analysisSystemPrompt (modelOf env) with
    | ok content =>
      rw [hc] at hfail
      simp [Except.isOk, Except.toBool] at hfail
    | error e => simp [hc]
  · intro hp content hc hparse
    simp only [analyzePRD, hp]
    simp [hc, hparse]

/-- Witness for claim C2: on a plain text with the remote capability absent,
`analyzePRD` returns exactly the deterministic fallback analysis. -/
theorem remote_failure_and_fallback_witness :
    analyzePRD envAbsent (strL "hello world") = analyzePRDFallback (strL "hello world") :=
  (remote_failure_and_fallback envAbsent [] [] [] (strL "hello world")).2.1 (by decide) (by decide)

/-- Spec-side recognizer of the five step-keyword classes named by the
claim (navigate/go to, click, enter/type, select, verify/check). -/
def cypressStepRecognized (step : List Char) : Bool :=
  let l := toLowerL step
  containsSub (strL "navigate") l || containsSub (strL "go to") l ||
  containsSub (strL "click") l || containsSub (strL "enter") l || containsSub (strL "type") l ||
  containsSub (strL "select") l || containsSub (strL "verify") l || containsSub (strL "check") l

/-- Spec-side recognizer of the keyword classes actually handled by the
Playwright translator (no `select` branch). -/
def playwrightStepRecognized (step : List Char) : Bool :=
  let l := toLowerL step
  containsSub (strL "navigate") l || containsSub (strL "go to") l ||
  containsSub (strL "click") l || containsSub (strL "enter") l || containsSub (strL "type") l ||
  containsSub (strL "verify") l || containsSub (strL "check") l

/-- Claim C6, counterexample: the step `Select an option` matches the
claimed keyword `select`, yet the Playwright translator has no `select`
branch and emits the comment fallback (the Cypress translator does emit the
select-command template). -/
theorem playwright_select_step_counterexample :
    containsSub (strL "select") (toLowerL (strL "Select an option")) = true ∧
    stepToPlaywrightCommand (strL "Select an option") = strL "// Select an option" ∧
    stepToCypressCommand (strL "Select an option") =
      strL "cy.get(\x27[data-test=\"element\"]\x27).select(\x27option\x27);" :=
  ⟨by decide, by decide, by decide⟩

/-- Claim C6 as amended: the Cypress translator classifies every step into
one of five command templates by the substring keywords, the Playwright
translator into one of four (its `select`-keyword steps fall through to the
comment); every step matching no handled keyword becomes a literal comment
echoing the step text, never dropped; and `Click the login button` maps in
both frameworks to the click-command template parameterized by the button
selector. -/
theorem step_translation_classification (step : List Char) :
    (cypressStepRecognized step = false → stepToCypressCommand step = strL "// " ++ step) ∧
    (cypressStepRecognized step = true →
      stepToCypressCommand step ∈
        [strL "cy.visit(\x27/\x27);",
         strL "cy.get(\x27" ++ extractElement step ++ strL "\x27).click();",
         strL "cy.get(\x27" ++ extractElement step ++ strL "\x27).type(\x27test data\x27);",
         strL "cy.get(\x27" ++ extractElement step ++ strL "\x27).select(\x27option\x27);",
         strL "cy.get(\x27[data-test]\x27).should(\x27exist\x27);"]) ∧
    (playwrightStepRecognized step = false → stepToPlaywrightCommand step = strL "// " ++ step) ∧
    (playwrightStepRecognized step = true →
      stepToPlaywrightCommand step ∈
        [strL "await page.goto(\x27/\x27);",
         strL "await page.click(\x27" ++ extractElement step ++ strL "\x27);",
         strL "await page.fill(\x27" ++ extractElement step ++ strL "\x27, \x27test data\x27);",
         strL "await expect(page.locator(\x27[data-test]\x27)).toBeVisible();"]) ∧
    stepToCypressCommand (strL "Click the login button") =
      strL "cy.get(\x27[data-test=\"button\"]\x27).click();" ∧
    stepToPlaywrightCommand (strL "Click the login button") =
      strL "await page.click(\x27[data-test=\"button\"]\x27);" := by
  refine ⟨?_, ?_, ?_, ?_, by decide, by decide⟩
  · intro h
    simp only [stepToCypressCommand]
    split_ifs <;> simp_all [cypressStepRecognized]
  · intro h
    simp only [stepToCypressCommand]
    split_ifs <;> simp_all [cypressStepRecognized]
  · intro h
    simp only [stepToPlaywrightCommand]
    split_ifs <;> simp_all [playwrightStepRecognized]
  · intro h
    simp only [stepToPlaywrightCommand]
    split_ifs <;> simp_all [playwrightStepRecognized]

/-- Witness for claim C6 at an unrecognized step: the comment fallback
echoes the step text. -/
theorem step_translation_classification_witness :
    stepToCypressCommand (strL "Dance wildly") = strL "// Dance wildly" :=
  (step_translation_classification (strL "Dance wildly")).1 (by decide)

/-- The execution frameworks accepted by `executeTests`/`saveTestFiles`. -/
inductive Framework where
  | cypress
  | playwright
  | puppeteer
deriving DecidableEq, Repr

/-- Directory-name segment of a framework. -/
def frameworkDirName : Framework → List Char
  | .cypress => strL "cypress"
  | .playwright => strL "playwright"
  | .puppeteer => strL "puppeteer"

/-- File-system effects, recorded as an ordered trace. -/
inductive FsEvent where
  | createFolder (path : List Char)
  | writeFile (path : List Char) (content : List Char)
deriving DecidableEq, Repr

/-- Model of `URI.joinPath` with a single segment. -/
def joinPath (a b : List Char) : List Char := a ++ '/' :: b

/-- JavaScript `a || b` on an optional string (empty string is falsy). -/
def jsOr (o : Option (List Char)) (d : List Char) : List Char :=
  match o with
  | some s => if s.isEmpty then d else s
  | none => d

/-- Code and extension chosen per framework by the `switch` of
`saveTestFiles` (the default branch covers `puppeteer`). -/
def codeAndExt (env : RemoteEnv) (framework : Framework) (testCase : TestCase) :
    List Char × List Char :=
  match framework with
  | .cypress => (jsOr testCase.cypressCode (generateCypressCode env testCase), strL ".cy.js")
  | .playwright =>
    (jsOr testCase.playwrightCode (generatePlaywrightCode env testCase), strL ".spec.js")
  | .puppeteer => (jsOr testCase.cypressCode (generateCypressCode env testCase), strL ".js")

/-- Model of `file.split('/').pop()`. -/
def lastSeg (p : List Char) : List Char := (p.splitOn '/').getLastD []

/-- Suite-file content built by `createTestSuiteFile` (empty — hence falsy,
no file written — for the framework not covered by its `switch`). -/
def suiteContent (testFiles : List (List Char)) (framework : Framework) : List Char :=
  match framework with
  | .cypress =>
    strL "// Auto-generated test suite\ndescribe(\x27Automated Test Suite\x27, () => \x7b\n\t" ++
    List.intercalate (strL "\n\t")
      (testFiles.map (fun file => strL "require(\x27./" ++ lastSeg file ++ strL "\x27);")) ++
    strL "\n\x7d);"
  | .playwright =>
    strL "// Auto-generated test suite\n" ++
    List.intercalate (strL "\n")
      (testFiles.map (fun file => strL "import \x27./" ++ lastSeg file ++ strL "\x27;"))
  | .puppeteer => []

/-- Model of `createTestSuiteFile` as the trace of writes it performs. -/
def createTestSuiteFile (testDir : List Char) (testFiles : List (List Char))
    (framework : Framework) : List FsEvent :=
  let c := suiteContent testFiles framework
  if c.isEmpty then []
  else
    [FsEvent.writeFile
      (joinPath testDir (strL "test-suite." ++
        (match framework with | .cypress => strL "cy" | _ => strL "spec") ++ strL ".js")) c]

/-- Loop body of `saveTestFiles`: write one generated file and record its
path. -/
def saveStep (env : RemoteEnv) (framework : Framework) (testDir : List Char)
    (acc : List (List Char) × List FsEvent) (testCase : TestCase) :
    List (List Char) × List FsEvent :=
  let ce := codeAndExt env framework testCase
  let fileUri := joinPath testDir (testCase.id ++ ce.2)
  (acc.1 ++ [fileUri], acc.2 ++ [FsEvent.writeFile fileUri ce.1])

/-- Model of `saveTestFiles`: fails without a workspace folder; otherwise
creates the per-framework directory, writes one file per test case in list
order, then lets `createTestSuiteFile` write the aggregate suite, and
returns the generated file paths together with the whole event trace. -/
def saveTestFiles (env : RemoteEnv) (workspace : Option (List Char))
    (testCases : List TestCase) (framework : Framework) :
    Except (List Char) (List (List Char) × List FsEvent) :=
  match workspace with
  | none => .error (strL "No workspace folder found")
  | some root =>
    let testDir :=
      joinPath (joinPath (joinPath root (strL "tests")) (frameworkDirName framework))
        (strL "generated")
    let res := testCases.foldl (saveStep env framework testDir)
      ([], [FsEvent.createFolder testDir])
    .ok (res.1, res.2 ++ createTestSuiteFile testDir res.1 framework)

/-- The per-framework generated directory `tests/<framework>/generated`. -/
def generatedDir (root : List Char) (framework : Framework) : List Char :=
  joinPath (joinPath (joinPath root (strL "tests")) (frameworkDirName framework))
    (strL "generated")

/-- The per-framework source-file extension. -/
def extOf : Framework → List Char
  | .cypress => strL ".cy.js"
  | .playwright => strL ".spec.js"
  | .puppeteer => strL ".js"

/-- The extension component of `codeAndExt` is `extOf`. -/
theorem codeAndExt_snd (env : RemoteEnv) (framework : Framework) (testCase : TestCase) :
    (codeAndExt env framework testCase).2 = extOf framework := by
  cases framework <;> rfl

/-- Unrolling of the write loop of `saveTestFiles`: it appends, in input
order, one path and one write event per test case. -/
theorem foldl_saveStep (env : RemoteEnv) (framework : Framework) (testDir : List Char)
    (testCases : List TestCase) (accFiles : List (List Char)) (accEvents : List FsEvent) :
    testCases.foldl (saveStep env framework testDir) (accFiles, accEvents) =
      (accFiles ++ testCases.map
        (fun tc => joinPath testDir (tc.id ++ (codeAndExt env framework tc).2)),
       accEvents ++ testCases.map
        (fun tc => FsEvent.writeFile (joinPath testDir (tc.id ++ (codeAndExt env framework tc).2))
          (codeAndExt env framework tc).1)) := by
  induction testCases generalizing accFiles accEvents with
  | nil => simp
  | cons tc tcs ih =>
    simp only [List.foldl_cons, List.map_cons]
    rw [show saveStep env framework testDir (accFiles, accEvents) tc =
      (accFiles ++ [joinPath testDir (tc.id ++ (codeAndExt env framework tc).2)],
       accEvents ++ [FsEvent.writeFile
         (joinPath testDir (tc.id ++ (codeAndExt env framework tc).2))
         (codeAndExt env framework tc).1]) from rfl]
    rw [ih]
    simp

/-- Claim C7 as amended: with a workspace open, `saveTestFiles` creates the
`tests/<framework>/generated` directory, writes one source file per test
case (`<id><ext>`) in exactly the input order, and then — after all
individual files — the aggregate suite write of `createTestSuiteFile`,
which is exactly one suite file for `cypress` and `playwright` and no file
at all for `puppeteer` (whose suite content is empty, hence falsy). -/
theorem save_files_order (env : RemoteEnv) (root : List Char)
    (testCases : List TestCase) (framework : Framework) :
    saveTestFiles env (some root) testCases framework =
      .ok (testCases.map (fun tc => joinPath (generatedDir root framework) (tc.id ++ extOf framework)),
        FsEvent.createFolder (generatedDir root framework) ::
          (testCases.map (fun tc =>
            FsEvent.writeFile (joinPath (generatedDir root framework) (tc.id ++ extOf framework))
              (codeAndExt env framework tc).1) ++
           createTestSuiteFile (generatedDir root framework)
            (testCases.map (fun tc => joinPath (generatedDir root framework) (tc.id ++ extOf framework)))
            framework)) ∧
    (createTestSuiteFile (generatedDir root framework)
        (testCases.map (fun tc => joinPath (generatedDir root framework) (tc.id ++ extOf framework)))
        framework).length = (if framework = Framework.puppeteer then 0 else 1) := by
  constructor
  · simp only [saveTestFiles, foldl_saveStep, generatedDir, codeAndExt_snd]
    simp
  · cases framework with
    | cypress =>
      simp only [createTestSuiteFile, suiteContent, if_neg, reduceIte]
      rw [if_neg]
      · rfl
      · simp [List.isEmpty_iff, List.append_eq_nil, strL]
    | playwright =>
      rw [show (createTestSuiteFile (generatedDir root .playwright) _ .playwright).length
          = 1 from ?_]
      · rfl
      · simp only [createTestSuiteFile, suiteContent]
        rw [if_neg]
        · rfl
        · simp [List.isEmpty_iff, List.append_eq_nil, strL]
    | puppeteer => rfl

/-- Claim C7, counterexample: for the supported framework `puppeteer`, the
per-case file is written but no aggregate suite file is ever written (the
claim asserts one suite write for every supported framework). -/
theorem puppeteer_no_suite_counterexample :
    saveTestFiles envAbsent (some (strL "ws"))
      [{ id := strL "t1", name := strL "n", description := strL "d", steps := [],
         expectedResult := strL "e", cypressCode := some (strL "x") }] Framework.puppeteer =
      .ok ([strL "ws/tests/puppeteer/generated/t1.js"],
        [FsEvent.createFolder (strL "ws/tests/puppeteer/generated"),
         FsEvent.writeFile (strL "ws/tests/puppeteer/generated/t1.js") (strL "x")]) := by
  rfl
